import Mathlib

/-!
Verification of the Nano utility-script repository against its
natural-language specification.

The development shallowly embeds the three Python scripts:

* `scripts/json_splitter.py`   — the record splitter (`runSplitter` below);
* `scripts/trigger.py`         — the job differ (`compareJobs`, `triggerMain`);
* `scripts/washk12_job_scraper_direct.py` — the field extractor and
  serializer (`jobDataDict`, `saveJobsToJson`, `scraperMain`).

JSON documents are modelled by the inductive type `Json`; Python dict and
`in` / `[]` operator semantics are modelled explicitly (`dictInsert`,
`pyContains`, `pyGetItem`), including the `TypeError` cases that the
splitter's generic exception handler turns into an exit with code 1.
File systems are modelled as association lists from filename to content.

Because apostrophes are awkward in this development's string literals,
strings of the source that contain a single-quote character are rebuilt
with `sq` (the character with code 39, i.e. the ASCII single quote); the
resulting strings are character-for-character those printed by the code.

The file is organised as definitions first, then theorems.
-/

namespace Nano

/-! # Definitions -/

/-- The ASCII single-quote character (code 39). -/
def sq : Char := Char.ofNat 39

/-- Wrap a string in single quotes, as Python f-strings like
`f"Error: Key '{key_name}' not found"` do around interpolations. -/
def quoteWrap (s : String) : String := String.mk (sq :: s.data ++ [sq])

/-- JSON values, as produced by Python's `json.load`: objects are modelled
as association lists in document order (numbers restricted to integers;
no claim depends on float values). -/
inductive Json where
  | null
  | bool (b : Bool)
  | num (n : Int)
  | str (s : String)
  | arr (elems : List Json)
  | obj (entries : List (String × Json))

/-- Python `str()` of a scalar, used by the splitter's f-string
`f"{item_id}.json"`.  Containers are rendered with Python's `repr`-style
brackets; no claim exercises container-valued ids. -/
def pyStrFn : Json → String
  | .null => "None"
  | .bool true => "True"
  | .bool false => "False"
  | .num n => toString n
  | .str s => s
  | .arr _ => "[...]"
  | .obj _ => "\x7b...\x7d"

/-- Whether the first character list occurs contiguously inside the second
(Python's substring test `needle in hay`; the empty needle matches). -/
def subList : List Char → List Char → Bool
  | n, [] => n.isEmpty
  | n, l@(_ :: t) => n.isPrefixOf l || subList n t

/-- Python's substring test on strings. -/
def strContains (needle hay : String) : Bool := subList needle.data hay.data

/-- Python `key in value` for a string key: key membership for dicts,
substring test for strings, element equality for lists (a string compares
equal only to an equal string in Python), and `TypeError` for the
non-iterable scalars. -/
def pyContains (k : String) : Json → Except String Bool
  | .obj kvs => .ok (kvs.any fun kv => kv.1 == k)
  | .arr xs => .ok (xs.any fun x => match x with | .str s => s == k | _ => false)
  | .str s => .ok (strContains k s)
  | .null => .error ("TypeError: argument of type " ++ quoteWrap "NoneType" ++ " is not iterable")
  | .bool _ => .error ("TypeError: argument of type " ++ quoteWrap "bool" ++ " is not iterable")
  | .num _ => .error ("TypeError: argument of type " ++ quoteWrap "int" ++ " is not iterable")

/-- Python `value[k]` for a string key `k`: dict lookup, `TypeError`
for strings, lists and scalars. -/
def pyGetItem (k : String) : Json → Except String Json
  | .obj kvs =>
    match kvs.find? (fun kv => kv.1 == k) with
    | some kv => .ok kv.2
    | none => .error ("KeyError: " ++ quoteWrap k)
  | .str _ => .error "TypeError: string indices must be integers"
  | .arr _ => .error "TypeError: list indices must be integers or slices, not str"
  | .null => .error ("TypeError: " ++ quoteWrap "NoneType" ++ " object is not subscriptable")
  | .bool _ => .error ("TypeError: " ++ quoteWrap "bool" ++ " object is not subscriptable")
  | .num _ => .error ("TypeError: " ++ quoteWrap "int" ++ " object is not subscriptable")

/-- Python dict assignment `d[k] = v`: updates the value in place when the
key is present (keeping its position) and appends the pair otherwise. -/
def dictInsert (d : List (String × α)) (k : String) (v : α) : List (String × α) :=
  if d.any (fun kv => kv.1 == k) then
    d.map (fun kv => if kv.1 == k then (k, v) else kv)
  else d ++ [(k, v)]

/-- Python dict lookup as an `Option` (first matching key; dicts built by
`dictInsert` have at most one entry per key). -/
def dictLookup (d : List (String × α)) (k : String) : Option α :=
  (d.find? (fun kv => kv.1 == k)).map (fun kv => kv.2)

/-- The keys of a dict, in insertion order. -/
def dictKeys (d : List (String × α)) : List String := d.map (fun kv => kv.1)

/-! ## Record splitter (`scripts/json_splitter.py`) -/

/-- The splitter's message for malformed top-level JSON
(`json.JSONDecodeError` branch, line 77). -/
def msgInvalidJson (jsonFile : String) : String :=
  "Error: " ++ quoteWrap jsonFile ++ " is not a valid JSON file."

/-- The splitter's message for a missing top-level key (line 45). -/
def msgKeyNotFound (keyName : String) : String :=
  "Error: Key " ++ quoteWrap keyName ++ " not found in the JSON file."

/-- The splitter's message for a present key whose value is not a list
(line 52). -/
def msgNotList (keyName : String) : String :=
  "Error: " ++ quoteWrap keyName ++ " does not contain a list of objects."

/-- Result of the per-item loop of `json_splitter.py` (lines 56–72):
the destination directory after the loop, the chronological list of file
write events, the indices that were warned about, and the error carried
to the generic exception handler when an item raises. -/
structure ItemsResult where
  dir : List (String × Json)
  writes : List (String × Json)
  warnings : List Nat
  err : Option String

/-- The per-item loop of `json_splitter.py` (lines 56–72): an item whose
`id_key` membership test raises aborts the run (generic handler, line 79);
an item without the id key is skipped with one warning; otherwise the item
is written to `<id>.json` in the destination directory, silently
overwriting. -/
def processItems (idKey : String) : List Json → Nat → List (String × Json) → ItemsResult
  | [], _, dir => ⟨dir, [], [], none⟩
  | item :: rest, i, dir =>
    match pyContains idKey item with
    | .error e => ⟨dir, [], [], some ("Error: " ++ e)⟩
    | .ok false =>
      let r := processItems idKey rest (i + 1) dir
      ⟨r.dir, r.writes, i :: r.warnings, r.err⟩
    | .ok true =>
      match pyGetItem idKey item with
      | .error e => ⟨dir, [], [], some ("Error: " ++ e)⟩
      | .ok idv =>
        let fname := pyStrFn idv ++ ".json"
        let r := processItems idKey rest (i + 1) (dictInsert dir fname item)
        ⟨r.dir, (fname, item) :: r.writes, r.warnings, r.err⟩

/-- Observable outcome of one `json_splitter.py` run. -/
structure SplitResult where
  exitCode : Nat
  finalDir : List (String × Json)
  writes : List (String × Json)
  warnings : List Nat
  processed : Option Nat
  errorMsg : Option String

/-- `main` of `json_splitter.py` (lines 18–81).  `parsed` is the result of
`json.load` (`none` = `JSONDecodeError`); `destDir` is the destination
directory's prior contents (`none` = directory absent).  The directory is
cleaned/created (lines 31–37) before the JSON is parsed, so every later
error path keeps the cleaned directory. -/
def runSplitter (jsonFile : String) (parsed : Option Json) (keyName idKey : String)
    (clean : Bool) (destDir : Option (List (String × Json))) : SplitResult :=
  let dir0 : List (String × Json) :=
    match destDir with
    | none => []
    | some d => if clean then [] else d
  match parsed with
  | none => ⟨1, dir0, [], [], none, some (msgInvalidJson jsonFile)⟩
  | some data =>
    match pyContains keyName data with
    | .error e => ⟨1, dir0, [], [], none, some ("Error: " ++ e)⟩
    | .ok false => ⟨1, dir0, [], [], none, some (msgKeyNotFound keyName)⟩
    | .ok true =>
      match pyGetItem keyName data with
      | .error e => ⟨1, dir0, [], [], none, some ("Error: " ++ e)⟩
      | .ok items =>
        match items with
        | .arr xs =>
          let r := processItems idKey xs 0 dir0
          match r.err with
          | some e => ⟨1, r.dir, r.writes, r.warnings, none, some e⟩
          | none => ⟨0, r.dir, r.writes, r.warnings, some xs.length, none⟩
        | _ => ⟨1, dir0, [], [], none, some (msgNotList keyName)⟩

/-- Whether a JSON value is an object possessing the given id key. -/
def hasIdKey (idKey : String) : Json → Bool
  | .obj kvs => kvs.any fun kv => kv.1 == idKey
  | _ => false

/-- The destination directory as it stands right after lines 31–37 of
`json_splitter.py` (clean/rmtree then `makedirs`), before the input JSON
is even opened. -/
def dirAfterSetup (clean : Bool) (destDir : Option (List (String × Json))) :
    List (String × Json) :=
  match destDir with
  | none => []
  | some d => if clean then [] else d

/-- The end-to-end example document of the specification, section 8:
`{"items": [{"id": "a1", "v": 1}, {"id": "a2", "v": 2}, {"x": 3}]}`. -/
def exampleDoc : Json :=
  Json.obj [("items", Json.arr
    [Json.obj [("id", Json.str "a1"), ("v", Json.num 1)],
     Json.obj [("id", Json.str "a2"), ("v", Json.num 2)],
     Json.obj [("x", Json.num 3)]])]

/-- The array of `exampleDoc`. -/
def exampleItems : List Json :=
  [Json.obj [("id", Json.str "a1"), ("v", Json.num 1)],
   Json.obj [("id", Json.str "a2"), ("v", Json.num 2)],
   Json.obj [("x", Json.num 3)]]

/-! ## Job differ (`scripts/trigger.py`) -/

/-- One job record as built by `extract_job_details` of the scraper
(lines 210–236): the thirteen always-present fields plus the three
optional fields that are added only when non-empty (modelled as `Option`,
`none` = key absent, so Python dict equality coincides with structural
equality of this record). -/
structure Job where
  job_id : String
  title : String
  position_type : String
  location : String
  date_posted : String
  date_available : String
  closing_date : String
  status : String
  minimum_requirements : String
  salary_information : String
  description : String
  attachments : List (String × String)
  url : String
  fte : Option String
  endorsements_required : Option String
  license_requirements : Option String
deriving DecidableEq

/-- The document written by `save_jobs_to_json` (lines 360–365):
run metadata plus the job list. -/
structure JobCollection where
  source : String
  date : String
  job_count : Nat
  jobs : List Job
deriving DecidableEq

/-- The dict comprehension `{job['job_id']: job for job in data.get('jobs', [])}`
of `compare_jobs` (lines 45–46): later duplicates overwrite earlier ones. -/
def jobsDict (jobs : List Job) : List (String × Job) :=
  jobs.foldl (fun d j => dictInsert d j.job_id j) []

/-- The three id lists reported by `compare_jobs`. -/
structure DiffResult where
  added : List String
  removed : List String
  changed : List String
deriving DecidableEq

/-- `compare_jobs` of `trigger.py` (lines 39–61): index both collections
by `job_id`, then report ids only in the current dict as added, ids only
in the previous dict as removed, and ids in both whose records compare
unequal (whole-record Python `!=`) as changed. -/
def compareJobs (current previous : List Job) : DiffResult :=
  let cur := jobsDict current
  let prev := jobsDict previous
  { added := (dictKeys cur).filter (fun k => (dictLookup prev k).isNone)
    removed := (dictKeys prev).filter (fun k => (dictLookup cur k).isNone)
    changed := (dictKeys cur).filter (fun k =>
      match dictLookup cur k, dictLookup prev k with
      | some cj, some pj => decide (cj ≠ pj)
      | _, _ => false) }

/-- The stderr fragment that `load_previous_json` recognises as the
first-run condition (line 32):
`fatal: path 'washk12_jobs/index.json' does not exist in 'HEAD~1'`. -/
def firstRunMarker : String :=
  "fatal: path " ++ quoteWrap "washk12_jobs/index.json" ++
    " does not exist in " ++ quoteWrap "HEAD~1"

/-- Message printed for the recognised first-run condition (line 33). -/
def msgNoPrevious : String :=
  "No previous version found - this appears to be the first commit with this file"

/-- Message printed by `main` when either collection failed to load
(line 96). -/
def msgUnableCompare : String :=
  "Unable to compare job data - missing current or previous data"

/-- How the previous collection reaches `load_previous_json`: either
`git show HEAD~1:washk12_jobs/index.json` failed (`CalledProcessError`
with the given stderr), or it succeeded and its stdout parsed to a
collection (`parsed (some c)`) or failed to parse (`parsed none`). -/
inductive PrevSource where
  | gitError (stderr : String)
  | parsed (result : Option JobCollection)

/-- `load_previous_json` of `trigger.py` (lines 17–37): on a git error the
result is `None` with diagnostics (plus the first-run notice when the
stderr carries `firstRunMarker`); on a JSON decode error the result is
`None`; otherwise the parsed collection.  The printed `CalledProcessError`
repr is abbreviated. -/
def loadPreviousJson : PrevSource → Option JobCollection × List String
  | .gitError stderr =>
    (none,
      ["Error getting previous version: CalledProcessError",
        "stderr: " ++ stderr] ++
      (if strContains firstRunMarker stderr then [msgNoPrevious] else []))
  | .parsed none => (none, ["Error parsing previous JSON"])
  | .parsed (some c) => (some c, [])

/-- `main` of `trigger.py` (lines 88–96): run the comparison only when
both loads are truthy (a loaded collection dict is non-empty, hence
truthy), otherwise print `msgUnableCompare` and produce no diff. -/
def triggerMain (currentLoad : Option JobCollection) (prevSrc : PrevSource) :
    Option DiffResult × List String :=
  let prev := loadPreviousJson prevSrc
  match currentLoad, prev.1 with
  | some c, some p => (some (compareJobs c.jobs p.jobs), prev.2)
  | _, _ => (none, prev.2 ++ [msgUnableCompare])

/-! ## Serializer (`scripts/washk12_job_scraper_direct.py`, lines 337–371
and `main`, lines 416–457) -/

/-- `save_jobs_to_json` (lines 337–371): an empty job list returns the
empty filename without touching the file system; otherwise the collection
document is written under the index filename (`--index` mode) or a
timestamped snapshot filename, and the written filename is returned. -/
def saveJobsToJson (jobs : List Job) (indexMode : Bool) (dateStr timeStr : String)
    (unixTs : Nat) (fs : List (String × JobCollection)) :
    String × List (String × JobCollection) :=
  if jobs.isEmpty then ("", fs)
  else
    let filename :=
      if indexMode then "washk12_jobs/index.json"
      else "washk12_jobs/washk12_jobs_" ++ dateStr ++ "_" ++ timeStr ++ "_" ++
        toString unixTs ++ ".json"
    (filename,
      dictInsert fs filename
        ⟨"Washington County School District", dateStr, jobs.length, jobs⟩)

/-- The tail of `main` of the scraper (lines 442–457): with a non-empty
job list the collection is saved and the success line printed; with no
jobs, `save_jobs_to_json` is never called and `"No jobs found."` is
printed, leaving the file system untouched. -/
def scraperMain (jobs : List Job) (indexMode : Bool) (dateStr timeStr : String)
    (unixTs : Nat) (fs : List (String × JobCollection)) :
    List (String × JobCollection) × List String :=
  if jobs.isEmpty then (fs, ["No jobs found."])
  else
    let r := saveJobsToJson jobs indexMode dateStr timeStr unixTs fs
    (r.2, ["Successfully saved " ++ toString jobs.length ++ " jobs to " ++ r.1])

/-- A job record with the given id and title and every other field
unextracted, used as concrete test data. -/
def mkJob (id title : String) : Job :=
  ⟨id, title, "", "", "", "", "", "", "", "", "", [], "", none, none, none⟩

/-- A concrete empty job collection, used as concrete test data. -/
def emptyColl : JobCollection :=
  ⟨"Washington County School District", "2026-10-12", 0, []⟩

/-! ## Field extractor (`scripts/washk12_job_scraper_direct.py`,
`extract_job_details`, lines 26–252)

The BeautifulSoup layer is abstracted into a `Fragment`: the values the
function reads off the parsed markup (flattened text, the title cell, the
first text node containing `JobID:`, the apply button's `onclick`, the
labelled list items, all `span` elements with their `id` attributes, and
the attachment links).  Everything from there on — the fields dict, the
regular-expression fallbacks, truncation and assembly of the job dict —
is translated from the source.  The regular expressions of the source all
belong to one family (`LABEL` + optional `s` + optional `:` + `\s-star` +
a lazy capture up to newline or end), which is implemented directly on
character lists with Python `re.search` leftmost-match semantics. -/

/-- Python `\s` on ASCII: space, tab, newline, carriage return, vertical
tab, form feed. -/
def isPySpace (c : Char) : Bool :=
  c == ' ' || c == Char.ofNat 9 || c == Char.ofNat 10 || c == Char.ofNat 13 ||
    c == Char.ofNat 11 || c == Char.ofNat 12

/-- Python `str.strip()` on a character list. -/
def pyStripList (l : List Char) : List Char :=
  ((l.dropWhile isPySpace).reverse.dropWhile isPySpace).reverse

/-- Lower-casing for the `re.IGNORECASE` searches. -/
def lcList (l : List Char) : List Char := l.map Char.toLower

/-- `re.search` leftmost-match driver: try the matcher at every suffix,
left to right (also at the empty suffix at the very end). -/
def reSearch (m : List Char → Option α) : List Char → Option α
  | [] => m []
  | l@(_ :: t) =>
    match m l with
    | some r => some r
    | none => reSearch m t

/-- Matcher for the pattern family `LIT` + optional `s` (when `optS`) +
optional `:` + `\s-star` + lazy capture `(.*?)(?:\n|$)`: after the literal,
the optional pieces are consumed greedily, whitespace (including newlines)
is skipped maximally, and the capture runs to the next newline or the end
of the string — exactly the backtracking-free normal form of these
patterns, since the tail of the pattern always succeeds. -/
def labelCapture (lit : List Char) (optS : Bool) (l : List Char) :
    Option (List Char) :=
  match lit.isPrefixOf l with
  | false => none
  | true =>
    let r1 := l.drop lit.length
    let r2 :=
      if optS then
        match r1 with
        | c :: t => if c == 's' then t else r1
        | [] => r1
      else r1
    let r3 :=
      match r2 with
      | c :: t => if c == ':' then t else r2
      | [] => r2
    let r4 := r3.dropWhile isPySpace
    some (r4.takeWhile (fun c => !(c == Char.ofNat 10)))

/-- `extract_field` (lines 255–258) specialised to the pattern family the
script uses: leftmost occurrence of the label, capture to end of line,
`strip`, and the empty string when nothing matches. -/
def extract_field (text : String) (lit : String) (optS : Bool) : String :=
  match reSearch (labelCapture lit.data optS) text.data with
  | some cap => String.mk (pyStripList cap)
  | none => ""

/-- Matcher for `JobID:\s*(\d+)` (line 56): the literal, maximal
whitespace, then at least one digit (greedy). -/
def jobIdCapture (l : List Char) : Option (List Char) :=
  match "JobID:".data.isPrefixOf l with
  | false => none
  | true =>
    let r := (l.drop 6).dropWhile isPySpace
    let ds := r.takeWhile Char.isDigit
    if ds.isEmpty then none else some ds

/-- `re.search(r'JobID:\s*(\d+)', s)` returning the captured digits. -/
def searchJobId (s : String) : Option String :=
  (reSearch jobIdCapture s.data).map String.mk

/-- The literal `applyFor('` of the onclick pattern (line 64). -/
def applyForLit : List Char := "applyFor(".data ++ [sq]

/-- Matcher for `applyFor\('(\d+)'` (line 64): the literal, at least one
digit (greedy), then the closing quote. -/
def applyForCapture (l : List Char) : Option (List Char) :=
  match applyForLit.isPrefixOf l with
  | false => none
  | true =>
    let r := l.drop applyForLit.length
    let ds := r.takeWhile Char.isDigit
    if ds.isEmpty then none
    else
      match r.drop ds.length with
      | c :: _ => if c == sq then some ds else none
      | [] => none

/-- `re.search(r"applyFor\('(\d+)'", s)` returning the captured digits. -/
def searchApplyFor (s : String) : Option String :=
  (reSearch applyForCapture s.data).map String.mk

/-- Leftmost case-insensitive match of one of the (lower-case, listed in
pattern order) alternative literals; returns the match's start and end
offsets, like `m.start()` / `m.end()`. -/
def findCIMatch (alts : List (List Char)) : List Char → Nat → Option (Nat × Nat)
  | [], _ => none
  | l@(_ :: t), i =>
    match alts.find? (fun a => a.isPrefixOf (lcList l)) with
    | some a => some (i, i + a.length)
    | none => findCIMatch alts t (i + 1)

/-- `text[max(0, s - back) : min(len(text), e + forward)].strip()`, the
bounded context window the script cuts around a pattern match. -/
def textWindow (text : List Char) (s e back forward : Nat) : String :=
  let st := s - back
  let en := min text.length (e + forward)
  String.mk (pyStripList ((text.drop st).take (en - st)))

/-- The salary-mention fallback (lines 122–127):
`re.search(r'salary schedule|salary is', all_text, re.IGNORECASE)` and a
−50/+150 window around the match. -/
def salaryWindow (text : List Char) : String :=
  match findCIMatch ["salary schedule".data, "salary is".data] text 0 with
  | none => ""
  | some (s, e) => textWindow text s e 50 150

/-- The endorsement-mention scan of the requirements field (lines
142–147): `re.search(r'endorsements?', requirements, re.IGNORECASE)` (the
greedy optional `s` modelled by preferring the longer alternative) and a
−20/+100 window. -/
def endorsementWindow (req : List Char) : String :=
  match findCIMatch ["endorsements".data, "endorsement".data] req 0 with
  | none => ""
  | some (s, e) => textWindow req s e 20 100

/-- The license-mention scan of the requirements field (lines 154–159). -/
def licenseWindow (req : List Char) : String :=
  match findCIMatch ["license".data] req 0 with
  | none => ""
  | some (s, e) => textWindow req s e 20 100

/-- Matcher for `(\d+(?:\.\d+)?\s*FTE)` with `re.IGNORECASE` (line 132):
greedy digits, a greedily-preferred fractional part (dropped on
backtracking when the tail fails), maximal whitespace, then `FTE`
case-insensitively; the capture is the matched text in its original
case. -/
def fteCapture (l : List Char) : Option (List Char) :=
  let ds := l.takeWhile Char.isDigit
  if ds.isEmpty then none
  else
    let r1 := l.drop ds.length
    let withFrac : Option (List Char) :=
      match r1 with
      | c :: r2 =>
        if c == '.' then
          let fs := r2.takeWhile Char.isDigit
          if fs.isEmpty then none
          else
            let r3 := r2.drop fs.length
            let ws := r3.takeWhile isPySpace
            match r3.drop ws.length with
            | a :: b :: c2 :: _ =>
              if lcList [a, b, c2] = ['f', 't', 'e'] then
                some (ds ++ c :: fs ++ ws ++ [a, b, c2])
              else none
            | _ => none
        else none
      | [] => none
    match withFrac with
    | some cap => some cap
    | none =>
      let ws := r1.takeWhile isPySpace
      match r1.drop ws.length with
      | a :: b :: c2 :: _ =>
        if lcList [a, b, c2] = ['f', 't', 'e'] then some (ds ++ ws ++ [a, b, c2])
        else none
      | _ => none

/-- `re.search(r'(\d+(?:\.\d+)?\s*FTE)', s, re.IGNORECASE)`. -/
def searchFte (s : String) : Option String :=
  (reSearch fteCapture s.data).map String.mk

/-- What `extract_job_details` reads off the parsed posting block:
the flattened text, the title cell (`table.title td#wrapword`) when
present, the first text node containing `JobID:`, the apply button's
`onclick` attribute, the `(label span text, normal span texts)` pairs of
the `li` elements that have a label span, all `span` elements as
`(id attribute, stripped text)` in document order, and the links of the
attachments `div` as `(text, href attribute)`. -/
structure Fragment where
  allText : String
  titleText : Option String
  jobIdString : Option String
  applyOnclick : Option String
  labelItems : List (String × List String)
  spans : List (Option String × String)
  attachmentsDiv : Option (List (String × Option String))

/-- `.replace(':', '')` on the label text (line 79). -/
def removeColons (s : String) : String :=
  String.mk (s.data.filter (fun c => !(c == ':')))

/-- The fields dict built by the `li` scan (lines 75–85): only items with
at least one normal span contribute, under the colon-stripped label, with
the normal span texts joined by single spaces; later labels overwrite. -/
def buildFields (items : List (String × List String)) : List (String × String) :=
  items.foldl
    (fun d it =>
      if it.2.isEmpty then d
      else dictInsert d (removeColons it.1) (String.intercalate " " it.2))
    []

/-- `fields.get(k, '')`. -/
def fieldsGet (d : List (String × String)) (k : String) : String :=
  match dictLookup d k with
  | some v => v
  | none => ""

/-- The fields dict of a fragment. -/
def fieldsOf (f : Fragment) : List (String × String) := buildFields f.labelItems

/-- Title extraction (lines 45–48): the title cell's text, else empty. -/
def extractTitle (f : Fragment) : String :=
  match f.titleText with
  | some t => t
  | none => ""

/-- Job id extraction (lines 51–66): start from the synthetic
`job_<index>`, overwrite with the JobID-text match when it succeeds, then
overwrite again with the apply-button match when it succeeds — the
apply-button method is *not* guarded on the first method's failure. -/
def extractJobId (f : Fragment) (index : Nat) : String :=
  let j0 := "job_" ++ toString index
  let j1 :=
    match f.jobIdString with
    | some s =>
      match searchJobId s with
      | some v => v
      | none => j0
    | none => j0
  match f.applyOnclick with
  | some oc =>
    match searchApplyFor oc with
    | some v => v
    | none => j1
  | none => j1

/-- Position type (lines 88–90): fields dict, else regex. -/
def extractPositionType (f : Fragment) : String :=
  let v := fieldsGet (fieldsOf f) "Position Type"
  if v = "" then extract_field f.allText "Position Type" false else v

/-- Location (lines 92–94). -/
def extractLocation (f : Fragment) : String :=
  let v := fieldsGet (fieldsOf f) "Location"
  if v = "" then extract_field f.allText "Location" false else v

/-- Date posted (lines 96–98). -/
def extractDatePosted (f : Fragment) : String :=
  let v := fieldsGet (fieldsOf f) "Date Posted"
  if v = "" then extract_field f.allText "Date Posted" false else v

/-- Closing date (lines 100–102). -/
def extractClosingDate (f : Fragment) : String :=
  let v := fieldsGet (fieldsOf f) "Closing Date"
  if v = "" then extract_field f.allText "Closing Date" false else v

/-- Date available (lines 105–107). -/
def extractDateAvailable (f : Fragment) : String :=
  let v := fieldsGet (fieldsOf f) "Date Available"
  if v = "" then extract_field f.allText "Date Available" false else v

/-- Status (lines 109–111). -/
def extractStatus (f : Fragment) : String :=
  let v := fieldsGet (fieldsOf f) "Status"
  if v = "" then extract_field f.allText "Status" false else v

/-- Minimum requirements (lines 113–115). -/
def extractRequirements (f : Fragment) : String :=
  let v := fieldsGet (fieldsOf f) "Minimum Requirements"
  if v = "" then extract_field f.allText "Minimum Requirements" false else v

/-- Salary information (lines 117–127): fields dict, else regex, else the
salary-mention window. -/
def extractSalary (f : Fragment) : String :=
  let v := fieldsGet (fieldsOf f) "Salary"
  if v = "" then
    let r := extract_field f.allText "Salary" false
    if r = "" then salaryWindow f.allText.data else r
  else v

/-- The FTE sibling strategy (lines 131–134): scan the already-extracted
status field, only when it is non-empty. -/
def fteSibling (f : Fragment) : String :=
  if extractStatus f ≠ "" then (searchFte (extractStatus f)).getD "" else ""

/-- FTE (lines 130–134): fields dict, else the status scan. -/
def extractFte (f : Fragment) : String :=
  let v := fieldsGet (fieldsOf f) "FTE"
  if v = "" then fteSibling f else v

/-- The endorsement sibling strategy (lines 140–147): scan the
already-extracted requirements field, only when it is non-empty. -/
def endorsementSibling (f : Fragment) : String :=
  if extractRequirements f ≠ "" then
    endorsementWindow (extractRequirements f).data
  else ""

/-- Endorsements (lines 137–147): fields dict, else regex, else the
requirements scan. -/
def extractEndorsements (f : Fragment) : String :=
  let v := fieldsGet (fieldsOf f) "Endorsements Required"
  if v = "" then
    let r := extract_field f.allText "Endorsement" true
    if r = "" then endorsementSibling f else r
  else v

/-- The license sibling strategy (lines 152–159). -/
def licenseSibling (f : Fragment) : String :=
  if extractRequirements f ≠ "" then
    licenseWindow (extractRequirements f).data
  else ""

/-- License requirements (lines 149–159): fields dict, else regex, else
the requirements scan. -/
def extractLicenseReq (f : Fragment) : String :=
  let v := fieldsGet (fieldsOf f) "License Requirements"
  if v = "" then
    let r := extract_field f.allText "License Requirement" true
    if r = "" then licenseSibling f else r
  else v

/-- Method 1 of description extraction (line 165): the first span whose
id attribute is truthy and starts with `DescriptionText`, selected by
*presence*, whatever its text. -/
def findDescSpan (spans : List (Option String × String)) : Option String :=
  (spans.find? (fun sp =>
    match sp.1 with
    | some i => "DescriptionText".data.isPrefixOf i.data
    | none => false)).map (fun sp => sp.2)

/-- Method 3 of description extraction (lines 174–181): the first span
whose truthy id contains `Text` and whose text is longer than 100
characters. -/
def findLongTextSpan (spans : List (Option String × String)) : Option String :=
  (spans.find? (fun sp =>
    match sp.1 with
    | some i => !(i == "") && strContains "Text" i && decide (sp.2.length > 100)
    | none => false)).map (fun sp => sp.2)

/-- Description before truncation (lines 161–181): the DescriptionText
span if one exists, else the `Additional Information` field if the *key*
is present, else the first long `Text`-id span, else empty. -/
def rawDescription (f : Fragment) : String :=
  match findDescSpan f.spans with
  | some t => t
  | none =>
    if (fieldsOf f).any (fun kv => kv.1 == "Additional Information") then
      fieldsGet (fieldsOf f) "Additional Information"
    else
      match findLongTextSpan f.spans with
      | some t => t
      | none => ""

/-- The truncation of line 221:
`description[:500] + ("..." if len(description) > 500 else "")`. -/
def truncateDescription (d : String) : String :=
  String.mk (d.data.take 500) ++ (if d.length > 500 then "..." else "")

/-- The url of lines 223–225: the AppliTrack job url for a real id, the
`all=1` listing url for a synthetic `job_`-prefixed id. -/
def jobUrl (jid : String) : String :=
  if "job_".data.isPrefixOf jid.data then
    "https://www.applitrack.com/washk12/onlineapp/default.aspx?all=1"
  else
    "https://www.applitrack.com/washk12/onlineapp/default.aspx?AppliTrackJobId="
      ++ jid

/-- Attachment extraction (lines 184–191): each link of the attachments
div as its text and href (defaulting to the empty string). -/
def extractAttachments (f : Fragment) : List (String × String) :=
  match f.attachmentsDiv with
  | none => []
  | some links =>
    links.map (fun l => (l.1, match l.2 with | some u => u | none => ""))

/-- A value of the job dict: a string field or the attachments list. -/
inductive JVal where
  | s (v : String)
  | links (v : List (String × String))
deriving DecidableEq

/-- The thirteen always-present entries of the job dict, in the order of
the literal at lines 210–226. -/
def jobDataBase (f : Fragment) (index : Nat) : List (String × JVal) :=
  [("job_id", JVal.s (extractJobId f index)),
   ("title", JVal.s (extractTitle f)),
   ("position_type", JVal.s (extractPositionType f)),
   ("location", JVal.s (extractLocation f)),
   ("date_posted", JVal.s (extractDatePosted f)),
   ("date_available", JVal.s (extractDateAvailable f)),
   ("closing_date", JVal.s (extractClosingDate f)),
   ("status", JVal.s (extractStatus f)),
   ("minimum_requirements", JVal.s (extractRequirements f)),
   ("salary_information", JVal.s (extractSalary f)),
   ("description", JVal.s (truncateDescription (rawDescription f))),
   ("attachments", JVal.links (extractAttachments f)),
   ("url", JVal.s (jobUrl (extractJobId f index)))]

/-- The job dict returned by `extract_job_details` (lines 210–252): the
thirteen base entries plus the optional `fte`, `endorsements_required`
and `license_requirements` keys, appended only when non-empty
(lines 229–236). -/
def jobDataDict (f : Fragment) (index : Nat) : List (String × JVal) :=
  jobDataBase f index ++
    (if extractFte f ≠ "" then [("fte", JVal.s (extractFte f))] else []) ++
    (if extractEndorsements f ≠ "" then
      [("endorsements_required", JVal.s (extractEndorsements f))] else []) ++
    (if extractLicenseReq f ≠ "" then
      [("license_requirements", JVal.s (extractLicenseReq f))] else [])

/-- Lookup in the returned job dict. -/
def jobField (f : Fragment) (index : Nat) (k : String) : Option JVal :=
  dictLookup (jobDataDict f index) k

/-- Ordered-fallback composition: the first non-empty strategy result,
else the empty string (the specification's description of the extraction
policy, section 4.1). -/
def firstNonEmpty : List String → String
  | [] => ""
  | s :: rest => if s = "" then firstNonEmpty rest else s

/-- A posting block in which nothing is recognisable. -/
def blankFragment : Fragment := ⟨"", none, none, none, [], [], none⟩

/-- A fragment whose JobID text says 111 but whose apply button says 222:
both job id strategies succeed with different values. -/
def overrideFragment : Fragment :=
  ⟨"", none, some "JobID: 111", some ("applyFor(" ++ quoteWrap "222" ++ ")"),
    [], [], none⟩

/-- A fragment whose DescriptionText span holds 501 characters. -/
def longDescFragment : Fragment :=
  ⟨"", none, none, none, [],
    [(some "DescriptionText100", String.mk (List.replicate 501 'a'))], none⟩

/-! # Theorems -/

theorem data_mk (l : List Char) : (String.mk l).data = l := rfl

/-! ## Dict helper lemmas -/

theorem dictLookup_cons (a : String × α) (t : List (String × α)) (n : String) :
    dictLookup (a :: t) n = if a.1 == n then some a.2 else dictLookup t n := by
  by_cases h : a.1 = n
  · simp [dictLookup, List.find?, h]
  · have h2 : (a.1 == n) = false := by simp [h]
    simp [dictLookup, List.find?, h2]

theorem dictLookup_map_update (t : List (String × α)) (k n : String) (v : α)
    (h : n ≠ k) :
    dictLookup (t.map fun kv => if kv.1 == k then (k, v) else kv) n =
      dictLookup t n := by
  induction t with
  | nil => rfl
  | cons a t ih =>
    simp only [List.map_cons]
    by_cases ha : a.1 = k
    · have h1 : (a.1 == k) = true := by simp [ha]
      have h2 : (k == n) = false := by simp; exact fun hh => h hh.symm
      have h3 : (a.1 == n) = false := by simp [ha]; exact fun hh => h hh.symm
      rw [dictLookup_cons, dictLookup_cons]
      simp only [h1, if_true, h2, h3, Bool.false_eq_true, if_false]
      exact ih
    · have h1 : (a.1 == k) = false := by simp [ha]
      rw [dictLookup_cons, dictLookup_cons]
      simp only [h1, Bool.false_eq_true, if_false]
      by_cases hn : a.1 = n
      · simp [hn]
      · have h2 : (a.1 == n) = false := by simp [hn]
        simp only [h2, Bool.false_eq_true, if_false]
        exact ih

theorem dictLookup_append_single (t : List (String × α)) (k n : String) (v : α)
    (h : n ≠ k) : dictLookup (t ++ [(k, v)]) n = dictLookup t n := by
  induction t with
  | nil =>
    have h2 : (k == n) = false := by simp; exact fun hh => h hh.symm
    simp [dictLookup, List.find?, h2]
  | cons a t ih =>
    rw [List.cons_append, dictLookup_cons, dictLookup_cons]
    by_cases hn : a.1 = n
    · simp [hn]
    · have h2 : (a.1 == n) = false := by simp [hn]
      simp only [h2, Bool.false_eq_true, if_false]
      exact ih

theorem dictLookup_dictInsert_ne (d : List (String × α)) (k n : String) (v : α)
    (h : n ≠ k) : dictLookup (dictInsert d k v) n = dictLookup d n := by
  unfold dictInsert
  by_cases hk : d.any (fun kv => kv.1 == k)
  · simp only [hk, if_true]
    exact dictLookup_map_update d k n v h
  · simp only [hk, if_false]
    exact dictLookup_append_single d k n v h

theorem dictLookup_isSome_iff (d : List (String × α)) (k : String) :
    (dictLookup d k).isSome ↔ k ∈ dictKeys d := by
  induction d with
  | nil => simp [dictLookup, dictKeys]
  | cons a t ih =>
    rw [dictLookup_cons]
    by_cases hk : a.1 = k
    · simp [dictKeys, hk]
    · have h2 : (a.1 == k) = false := by simp [hk]
      simp only [h2, Bool.false_eq_true, if_false, dictKeys, List.map_cons,
        List.mem_cons]
      constructor
      · intro hs; exact Or.inr (ih.mp hs)
      · rintro (hh | hh)
        · exact absurd hh.symm hk
        · exact ih.mpr hh

/-! ## Helper lemmas about the splitter loop -/

theorem processItems_objs (idKey : String) :
    ∀ (xs : List Json) (i : Nat) (dir : List (String × Json)),
      (∀ x ∈ xs, ∃ kvs, x = Json.obj kvs) →
      (processItems idKey xs i dir).err = none ∧
      (processItems idKey xs i dir).writes.length =
        (xs.filter (hasIdKey idKey)).length ∧
      (processItems idKey xs i dir).warnings =
        ((xs.enumFrom i).filter (fun p => !hasIdKey idKey p.2)).map Prod.fst := by
  intro xs
  induction xs with
  | nil => intro i dir _; simp [processItems, List.enumFrom]
  | cons x rest ih =>
    intro i dir hobj
    obtain ⟨kvs, rfl⟩ := hobj x (List.mem_cons_self x rest)
    have hrest := fun y hy => hobj y (List.mem_cons_of_mem _ hy)
    by_cases hany : kvs.any (fun kv => kv.1 == idKey)
    · have hfind : ∃ kv, kvs.find? (fun kv => kv.1 == idKey) = some kv := by
        cases hf : kvs.find? (fun kv => kv.1 == idKey) with
        | none =>
          obtain ⟨y, hy, hp⟩ := List.any_eq_true.mp hany
          exact absurd hp (List.find?_eq_none.mp hf y hy)
        | some kv => exact ⟨kv, rfl⟩
      obtain ⟨kv, hfind⟩ := hfind
      have h1 := ih (i + 1)
        (dictInsert dir (pyStrFn kv.2 ++ ".json") (Json.obj kvs)) hrest
      simp only [processItems, pyContains, pyGetItem, hany, hfind,
        List.enumFrom_cons, List.filter_cons, hasIdKey, Bool.not_true,
        List.length_cons]
      simp only [hasIdKey] at h1
      refine ⟨h1.1, ?_, ?_⟩
      · simp [h1.2.1, hany]
      · simp [hany, h1.2.2]
    · have hany' : kvs.any (fun kv => kv.1 == idKey) = false :=
        Bool.not_eq_true _ ▸ eq_false_of_ne_true hany
      have h1 := ih (i + 1) dir hrest
      simp only [processItems, pyContains, hany',
        List.enumFrom_cons, List.filter_cons, hasIdKey, List.length_cons]
      simp only [hasIdKey] at h1
      refine ⟨h1.1, ?_, ?_⟩
      · simp [h1.2.1, hany']
      · simp [hany', h1.2.2]

theorem processItems_frame (idKey : String) :
    ∀ (xs : List Json) (i : Nat) (dir : List (String × Json)) (n : String),
      n ∉ (processItems idKey xs i dir).writes.map Prod.fst →
      dictLookup (processItems idKey xs i dir).dir n = dictLookup dir n := by
  intro xs
  induction xs with
  | nil => intro i dir n _; rfl
  | cons x rest ih =>
    intro i dir n hn
    cases hc : pyContains idKey x with
    | error e => simp [processItems, hc]
    | ok b =>
      cases b with
      | false =>
        simp only [processItems, hc] at hn ⊢
        exact ih (i + 1) dir n hn
      | true =>
        cases hg : pyGetItem idKey x with
        | error e => simp [processItems, hc, hg]
        | ok idv =>
          simp only [processItems, hc, hg, List.map_cons, List.mem_cons] at hn ⊢
          push_neg at hn
          rw [ih (i + 1) _ n hn.2]
          exact dictLookup_dictInsert_ne _ _ _ _ hn.1

theorem runSplitter_finalDir_frame (jsonFile keyName idKey : String)
    (parsed : Option Json) (clean : Bool)
    (destDir : Option (List (String × Json))) (n : String)
    (hn : n ∉ (runSplitter jsonFile parsed keyName idKey clean destDir).writes.map
      Prod.fst) :
    dictLookup (runSplitter jsonFile parsed keyName idKey clean destDir).finalDir n =
      dictLookup (dirAfterSetup clean destDir) n := by
  cases parsed with
  | none => rfl
  | some data =>
    cases hc : pyContains keyName data with
    | error e => simp [runSplitter, hc, dirAfterSetup]
    | ok b =>
      cases b with
      | false => simp [runSplitter, hc, dirAfterSetup]
      | true =>
        cases hg : pyGetItem keyName data with
        | error e => simp [runSplitter, hc, hg, dirAfterSetup]
        | ok items =>
          cases items with
          | arr xs =>
            simp only [runSplitter, hc, hg] at hn ⊢
            cases herr : (processItems idKey xs 0 (dirAfterSetup clean destDir)).err with
            | none =>
              simp only [dirAfterSetup] at herr ⊢
              simp only [herr] at hn ⊢
              exact processItems_frame idKey xs 0 _ n hn
            | some e =>
              simp only [dirAfterSetup] at herr ⊢
              simp only [herr] at hn ⊢
              exact processItems_frame idKey xs 0 _ n hn
          | null => simp [runSplitter, hc, hg, dirAfterSetup]
          | bool b => simp [runSplitter, hc, hg, dirAfterSetup]
          | num m => simp [runSplitter, hc, hg, dirAfterSetup]
          | str s => simp [runSplitter, hc, hg, dirAfterSetup]
          | obj kvs => simp [runSplitter, hc, hg, dirAfterSetup]

/-! ## Message distinctness helpers -/

theorem msgInvalidJson_ne_msgKeyNotFound (f k : String) :
    msgInvalidJson f ≠ msgKeyNotFound k := by
  intro h
  have hd := congrArg (fun s => s.data[7]?) h
  simp only [msgInvalidJson, msgKeyNotFound, quoteWrap, String.data_append,
    data_mk] at hd
  simp only [List.cons_append, List.nil_append, List.getElem?_cons_succ,
    List.getElem?_cons_zero] at hd
  exact absurd (Option.some.inj hd) (by decide)

theorem msgKeyNotFound_ne_msgNotList (f k : String) :
    msgKeyNotFound f ≠ msgNotList k := by
  intro h
  have hd := congrArg (fun s => s.data[7]?) h
  simp only [msgKeyNotFound, msgNotList, quoteWrap, String.data_append,
    data_mk] at hd
  simp only [List.cons_append, List.nil_append, List.getElem?_cons_succ,
    List.getElem?_cons_zero] at hd
  exact absurd (Option.some.inj hd) (by decide)

theorem msgInvalidJson_ne_msgNotList (f k : String) :
    msgInvalidJson f ≠ msgNotList k := by
  intro h
  have hd := congrArg (fun s => s.data.reverse.take 3) h
  simp only [msgInvalidJson, msgNotList, quoteWrap, String.data_append,
    data_mk, List.reverse_append, List.append_assoc] at hd
  rw [List.take_append_of_le_length (by rw [List.length_reverse]; decide),
    List.take_append_of_le_length (by rw [List.length_reverse]; decide)] at hd
  exact absurd hd (by decide)

/-! ## Claims about the record splitter -/

/-- **C1** (amended: the named key holds an array **of objects**; for other
element shapes see `claim_C1_counterexample`).  The number of file writes
equals the number of array elements possessing the id field, the warned
indices are exactly the elements missing the id field (one warning each),
and the reported processed count is the full array length. -/
theorem claim_C1 (jsonFile keyName idKey : String) (clean : Bool)
    (destDir : Option (List (String × Json))) (data : Json) (xs : List Json)
    (hmem : pyContains keyName data = Except.ok true)
    (hget : pyGetItem keyName data = Except.ok (Json.arr xs))
    (hobj : ∀ x ∈ xs, ∃ kvs, x = Json.obj kvs) :
    (runSplitter jsonFile (some data) keyName idKey clean destDir).exitCode = 0 ∧
    (runSplitter jsonFile (some data) keyName idKey clean destDir).writes.length =
      (xs.filter (hasIdKey idKey)).length ∧
    (runSplitter jsonFile (some data) keyName idKey clean destDir).warnings =
      ((xs.enumFrom 0).filter (fun p => !hasIdKey idKey p.2)).map Prod.fst ∧
    (runSplitter jsonFile (some data) keyName idKey clean destDir).processed =
      some xs.length := by
  have h := processItems_objs idKey xs 0 (dirAfterSetup clean destDir) hobj
  simp only [dirAfterSetup] at h
  simp only [runSplitter, hmem, hget, h.1]
  exact ⟨trivial, h.2.1, h.2.2, trivial⟩

/-- **C1 counterexample**: a valid input whose key holds the array `[42]`.
The claim predicts one warning for the element missing the id field and a
reported processed count of 1; the code instead raises `TypeError` inside
`id_key not in item` on an `int`, which the generic handler turns into
exit code 1 with no warning and no processed count. -/
theorem claim_C1_counterexample :
    (runSplitter "input.json" (some (Json.obj [("items", Json.arr [Json.num 42])]))
        "items" "id" false (some [])).exitCode = 1 ∧
    (runSplitter "input.json" (some (Json.obj [("items", Json.arr [Json.num 42])]))
        "items" "id" false (some [])).warnings = [] ∧
    (runSplitter "input.json" (some (Json.obj [("items", Json.arr [Json.num 42])]))
        "items" "id" false (some [])).writes = [] ∧
    (runSplitter "input.json" (some (Json.obj [("items", Json.arr [Json.num 42])]))
        "items" "id" false (some [])).processed = none :=
  ⟨rfl, rfl, rfl, rfl⟩

theorem claim_C1_witness :
    (runSplitter "in.json" (some exampleDoc) "items" "id" false
      (some [])).exitCode = 0 ∧
    (runSplitter "in.json" (some exampleDoc) "items" "id" false
      (some [])).writes.length = 2 ∧
    (runSplitter "in.json" (some exampleDoc) "items" "id" false
      (some [])).warnings = [2] ∧
    (runSplitter "in.json" (some exampleDoc) "items" "id" false
      (some [])).processed = some 3 := by
  have hobj : ∀ x ∈ exampleItems, ∃ kvs, x = Json.obj kvs := by
    intro x hx
    simp only [exampleItems, List.mem_cons, List.not_mem_nil, or_false] at hx
    rcases hx with rfl | rfl | rfl
    · exact ⟨_, rfl⟩
    · exact ⟨_, rfl⟩
    · exact ⟨_, rfl⟩
  have h := claim_C1 "in.json" "items" "id" false (some []) exampleDoc
    exampleItems rfl rfl hobj
  refine ⟨h.1, h.2.1.trans (by decide), h.2.2.1.trans (by decide),
    h.2.2.2.trans (by decide)⟩

/-- **C5**: invalid top-level JSON, a missing key, and a present key whose
value is not a list each exit with code 1, write no output file, and print
the case's own message; the three messages are pairwise distinct for any
file and key name. -/
theorem claim_C5 (jsonFile keyName idKey : String) (clean : Bool)
    (destDir : Option (List (String × Json))) (data v : Json) :
    ((runSplitter jsonFile none keyName idKey clean destDir).exitCode = 1 ∧
      (runSplitter jsonFile none keyName idKey clean destDir).writes = [] ∧
      (runSplitter jsonFile none keyName idKey clean destDir).errorMsg =
        some (msgInvalidJson jsonFile)) ∧
    (pyContains keyName data = Except.ok false →
      (runSplitter jsonFile (some data) keyName idKey clean destDir).exitCode = 1 ∧
      (runSplitter jsonFile (some data) keyName idKey clean destDir).writes = [] ∧
      (runSplitter jsonFile (some data) keyName idKey clean destDir).errorMsg =
        some (msgKeyNotFound keyName)) ∧
    (pyContains keyName data = Except.ok true →
      pyGetItem keyName data = Except.ok v →
      (∀ xs, v ≠ Json.arr xs) →
      (runSplitter jsonFile (some data) keyName idKey clean destDir).exitCode = 1 ∧
      (runSplitter jsonFile (some data) keyName idKey clean destDir).writes = [] ∧
      (runSplitter jsonFile (some data) keyName idKey clean destDir).errorMsg =
        some (msgNotList keyName)) ∧
    msgInvalidJson jsonFile ≠ msgKeyNotFound keyName ∧
    msgInvalidJson jsonFile ≠ msgNotList keyName ∧
    msgKeyNotFound keyName ≠ msgNotList keyName := by
  refine ⟨⟨rfl, rfl, rfl⟩, ?_, ?_, msgInvalidJson_ne_msgKeyNotFound _ _,
    msgInvalidJson_ne_msgNotList _ _, msgKeyNotFound_ne_msgNotList _ _⟩
  · intro hc
    simp [runSplitter, hc]
  · intro hc hg hv
    cases v with
    | arr xs => exact absurd rfl (hv xs)
    | null => simp [runSplitter, hc, hg]
    | bool b => simp [runSplitter, hc, hg]
    | num m => simp [runSplitter, hc, hg]
    | str s => simp [runSplitter, hc, hg]
    | obj kvs => simp [runSplitter, hc, hg]

theorem claim_C5_witness :
    ((runSplitter "in.json" none "items" "id" false (some [])).exitCode = 1 ∧
      (runSplitter "in.json" none "items" "id" false (some [])).writes = [] ∧
      (runSplitter "in.json" none "items" "id" false (some [])).errorMsg =
        some (msgInvalidJson "in.json")) ∧
    ((runSplitter "in.json" (some (Json.obj [])) "items" "id" false
        (some [])).exitCode = 1 ∧
      (runSplitter "in.json" (some (Json.obj [])) "items" "id" false
        (some [])).writes = [] ∧
      (runSplitter "in.json" (some (Json.obj [])) "items" "id" false
        (some [])).errorMsg = some (msgKeyNotFound "items")) ∧
    ((runSplitter "in.json" (some (Json.obj [("items", Json.str "x")])) "items"
        "id" false (some [])).exitCode = 1 ∧
      (runSplitter "in.json" (some (Json.obj [("items", Json.str "x")])) "items"
        "id" false (some [])).writes = [] ∧
      (runSplitter "in.json" (some (Json.obj [("items", Json.str "x")])) "items"
        "id" false (some [])).errorMsg = some (msgNotList "items")) :=
  ⟨(claim_C5 "in.json" "items" "id" false (some []) (Json.obj []) Json.null).1,
   (claim_C5 "in.json" "items" "id" false (some []) (Json.obj []) Json.null).2.1 rfl,
   (claim_C5 "in.json" "items" "id" false (some [])
     (Json.obj [("items", Json.str "x")]) (Json.str "x")).2.2.1 rfl rfl
     (fun _ h => Json.noConfusion h)⟩

/-- **C7**: with `--clean` on an existing destination directory, no prior
file survives the run unless rewritten (the directory is emptied before
the write loop); without `--clean`, every pre-existing file whose name is
not among the written filenames keeps its exact prior content. -/
theorem claim_C7 (jsonFile keyName idKey : String) (parsed : Option Json)
    (d : List (String × Json)) (n : String) :
    (n ∉ (runSplitter jsonFile parsed keyName idKey true
        (some d)).writes.map Prod.fst →
      dictLookup (runSplitter jsonFile parsed keyName idKey true
        (some d)).finalDir n = none) ∧
    (n ∉ (runSplitter jsonFile parsed keyName idKey false
        (some d)).writes.map Prod.fst →
      dictLookup (runSplitter jsonFile parsed keyName idKey false
        (some d)).finalDir n = dictLookup d n) := by
  constructor
  · intro hn
    exact (runSplitter_finalDir_frame jsonFile keyName idKey parsed true
      (some d) n hn).trans rfl
  · intro hn
    exact (runSplitter_finalDir_frame jsonFile keyName idKey parsed false
      (some d) n hn).trans rfl

theorem claim_C7_witness :
    dictLookup (runSplitter "in.json" (some exampleDoc) "items" "id" true
      (some [("old.json", Json.null)])).finalDir "old.json" = none ∧
    dictLookup (runSplitter "in.json" (some exampleDoc) "items" "id" false
      (some [("old.json", Json.null)])).finalDir "old.json" =
      dictLookup [("old.json", Json.null)] "old.json" :=
  ⟨(claim_C7 "in.json" "items" "id" (some exampleDoc)
      [("old.json", Json.null)] "old.json").1 (by decide),
   (claim_C7 "in.json" "items" "id" (some exampleDoc)
      [("old.json", Json.null)] "old.json").2 (by decide)⟩

/-- **C9**: with `--clean` on an existing destination directory, the
directory is emptied before the JSON is parsed, so each fatal input error
(invalid JSON, missing key, non-array value) still leaves the prior
contents removed: exit code 1 with an empty final directory. -/
theorem claim_C9 (jsonFile keyName idKey : String)
    (d : List (String × Json)) (data v : Json) :
    ((runSplitter jsonFile none keyName idKey true (some d)).exitCode = 1 ∧
      (runSplitter jsonFile none keyName idKey true (some d)).finalDir = [] ∧
      (runSplitter jsonFile none keyName idKey true (some d)).writes = []) ∧
    (pyContains keyName data = Except.ok false →
      (runSplitter jsonFile (some data) keyName idKey true (some d)).exitCode = 1 ∧
      (runSplitter jsonFile (some data) keyName idKey true (some d)).finalDir = [] ∧
      (runSplitter jsonFile (some data) keyName idKey true (some d)).writes = []) ∧
    (pyContains keyName data = Except.ok true →
      pyGetItem keyName data = Except.ok v →
      (∀ xs, v ≠ Json.arr xs) →
      (runSplitter jsonFile (some data) keyName idKey true (some d)).exitCode = 1 ∧
      (runSplitter jsonFile (some data) keyName idKey true (some d)).finalDir = [] ∧
      (runSplitter jsonFile (some data) keyName idKey true (some d)).writes = []) := by
  refine ⟨⟨rfl, rfl, rfl⟩, ?_, ?_⟩
  · intro hc
    simp [runSplitter, hc]
  · intro hc hg hv
    cases v with
    | arr xs => exact absurd rfl (hv xs)
    | null => simp [runSplitter, hc, hg]
    | bool b => simp [runSplitter, hc, hg]
    | num m => simp [runSplitter, hc, hg]
    | str s => simp [runSplitter, hc, hg]
    | obj kvs => simp [runSplitter, hc, hg]

theorem claim_C9_witness :
    ((runSplitter "in.json" none "items" "id" true
        (some [("old.json", Json.null)])).exitCode = 1 ∧
      (runSplitter "in.json" none "items" "id" true
        (some [("old.json", Json.null)])).finalDir = [] ∧
      (runSplitter "in.json" none "items" "id" true
        (some [("old.json", Json.null)])).writes = []) ∧
    ((runSplitter "in.json" (some (Json.obj [])) "items" "id" true
        (some [("old.json", Json.null)])).exitCode = 1 ∧
      (runSplitter "in.json" (some (Json.obj [])) "items" "id" true
        (some [("old.json", Json.null)])).finalDir = [] ∧
      (runSplitter "in.json" (some (Json.obj [])) "items" "id" true
        (some [("old.json", Json.null)])).writes = []) ∧
    ((runSplitter "in.json" (some (Json.obj [("items", Json.str "x")]))
        "items" "id" true (some [("old.json", Json.null)])).exitCode = 1 ∧
      (runSplitter "in.json" (some (Json.obj [("items", Json.str "x")]))
        "items" "id" true (some [("old.json", Json.null)])).finalDir = [] ∧
      (runSplitter "in.json" (some (Json.obj [("items", Json.str "x")]))
        "items" "id" true (some [("old.json", Json.null)])).writes = []) :=
  ⟨(claim_C9 "in.json" "items" "id" [("old.json", Json.null)]
      (Json.obj []) Json.null).1,
   (claim_C9 "in.json" "items" "id" [("old.json", Json.null)]
      (Json.obj []) Json.null).2.1 rfl,
   (claim_C9 "in.json" "items" "id" [("old.json", Json.null)]
      (Json.obj [("items", Json.str "x")]) (Json.str "x")).2.2 rfl rfl
      (fun _ h => Json.noConfusion h)⟩

/-! ## Claims about the job differ -/

/-- **C3**: when the two collections index to extensionally equal job
dicts (identical `job_id` sets, field-for-field equal records), the added,
removed and changed lists are all empty; and when the dicts agree on the
same `job_id` set but disagree on exactly one record, `changed` contains
exactly that record's id and `added` and `removed` are empty. -/
theorem claim_C3 (current previous : List Job) :
    ((∀ k, dictLookup (jobsDict current) k = dictLookup (jobsDict previous) k) →
      (compareJobs current previous).added = [] ∧
      (compareJobs current previous).removed = [] ∧
      (compareJobs current previous).changed = []) ∧
    (∀ (k₀ : String) (j₁ j₂ : Job),
      dictLookup (jobsDict current) k₀ = some j₁ →
      dictLookup (jobsDict previous) k₀ = some j₂ →
      j₁ ≠ j₂ →
      (∀ k, k ≠ k₀ →
        dictLookup (jobsDict current) k = dictLookup (jobsDict previous) k) →
      (compareJobs current previous).added = [] ∧
      (compareJobs current previous).removed = [] ∧
      (∀ k, k ∈ (compareJobs current previous).changed ↔ k = k₀)) := by
  constructor
  · intro h
    refine ⟨?_, ?_, ?_⟩
    · simp only [compareJobs]
      rw [List.filter_eq_nil_iff]
      intro k hk hnone
      have hs : (dictLookup (jobsDict current) k).isSome :=
        (dictLookup_isSome_iff _ _).mpr hk
      rw [h k] at hs
      rw [Option.isNone_iff_eq_none] at hnone
      rw [hnone] at hs
      simp at hs
    · simp only [compareJobs]
      rw [List.filter_eq_nil_iff]
      intro k hk hnone
      have hs : (dictLookup (jobsDict previous) k).isSome :=
        (dictLookup_isSome_iff _ _).mpr hk
      rw [← h k] at hs
      rw [Option.isNone_iff_eq_none] at hnone
      rw [hnone] at hs
      simp at hs
    · simp only [compareJobs]
      rw [List.filter_eq_nil_iff]
      intro k hk hmatch
      rw [← h k] at hmatch
      cases hc2 : dictLookup (jobsDict current) k with
      | none => rw [hc2] at hmatch; simp at hmatch
      | some cj => rw [hc2] at hmatch; simp at hmatch
  · intro k₀ j₁ j₂ hc hp hne hrest
    refine ⟨?_, ?_, ?_⟩
    · simp only [compareJobs]
      rw [List.filter_eq_nil_iff]
      intro k hk hnone
      rw [Option.isNone_iff_eq_none] at hnone
      by_cases hkk : k = k₀
      · subst hkk
        rw [hp] at hnone
        exact Option.noConfusion hnone
      · have hs : (dictLookup (jobsDict current) k).isSome :=
          (dictLookup_isSome_iff _ _).mpr hk
        rw [hrest k hkk] at hs
        rw [hnone] at hs
        simp at hs
    · simp only [compareJobs]
      rw [List.filter_eq_nil_iff]
      intro k hk hnone
      rw [Option.isNone_iff_eq_none] at hnone
      by_cases hkk : k = k₀
      · subst hkk
        rw [hc] at hnone
        exact Option.noConfusion hnone
      · have hs : (dictLookup (jobsDict previous) k).isSome :=
          (dictLookup_isSome_iff _ _).mpr hk
        rw [← hrest k hkk] at hs
        rw [hnone] at hs
        simp at hs
    · intro k
      simp only [compareJobs]
      rw [List.mem_filter]
      constructor
      · rintro ⟨hk, hpred⟩
        by_contra hkk
        rw [← hrest k hkk] at hpred
        cases hc2 : dictLookup (jobsDict current) k with
        | none => rw [hc2] at hpred; simp at hpred
        | some cj => rw [hc2] at hpred; simp at hpred
      · rintro rfl
        refine ⟨(dictLookup_isSome_iff _ _).mp (by rw [hc]; rfl), ?_⟩
        rw [hc, hp]
        simp [hne]

theorem claim_C3_witness :
    ((compareJobs [mkJob "A" "x"] [mkJob "A" "x"]).added = [] ∧
      (compareJobs [mkJob "A" "x"] [mkJob "A" "x"]).removed = [] ∧
      (compareJobs [mkJob "A" "x"] [mkJob "A" "x"]).changed = []) ∧
    ((compareJobs [mkJob "A" "x"] [mkJob "A" "y"]).added = [] ∧
      (compareJobs [mkJob "A" "x"] [mkJob "A" "y"]).removed = [] ∧
      "A" ∈ (compareJobs [mkJob "A" "x"] [mkJob "A" "y"]).changed) := by
  have hrest : ∀ k, k ≠ "A" →
      dictLookup (jobsDict [mkJob "A" "x"]) k =
        dictLookup (jobsDict [mkJob "A" "y"]) k := by
    intro k hk
    have hne : ("A" == k) = false := by
      simp only [beq_eq_false_iff_ne]
      exact fun hh => hk hh.symm
    show dictLookup [("A", mkJob "A" "x")] k = dictLookup [("A", mkJob "A" "y")] k
    rw [dictLookup_cons, dictLookup_cons, hne]
    simp
  have h2 := (claim_C3 [mkJob "A" "x"] [mkJob "A" "y"]).2 "A"
    (mkJob "A" "x") (mkJob "A" "y") rfl rfl (by decide) hrest
  exact ⟨(claim_C3 [mkJob "A" "x"] [mkJob "A" "x"]).1 (fun k => rfl),
    h2.1, h2.2.1, (h2.2.2 "A").mpr rfl⟩

/-- **C8**: when `git show` fails for the prior revision (in particular on
the first run, when the file does not exist in `HEAD~1`), the comparison
is skipped — no `DiffResult` is produced, the skip is reported, and the
recognised first-run stderr additionally prints the first-run notice; a
`DiffResult` is produced only when both the current and the previous
collection loaded successfully. -/
theorem claim_C8 (currentLoad : Option JobCollection) (prevSrc : PrevSource)
    (stderr : String) :
    ((triggerMain currentLoad (PrevSource.gitError stderr)).1 = none ∧
      msgUnableCompare ∈ (triggerMain currentLoad (PrevSource.gitError stderr)).2 ∧
      (strContains firstRunMarker stderr = true →
        msgNoPrevious ∈ (triggerMain currentLoad (PrevSource.gitError stderr)).2)) ∧
    ((triggerMain currentLoad prevSrc).1.isSome →
      currentLoad.isSome ∧ (loadPreviousJson prevSrc).1.isSome) := by
  constructor
  · refine ⟨?_, ?_, ?_⟩
    · cases currentLoad with
      | none => rfl
      | some c => rfl
    · cases currentLoad with
      | none => simp [triggerMain, loadPreviousJson]
      | some c => simp [triggerMain, loadPreviousJson]
    · intro hmark
      cases currentLoad with
      | none => simp [triggerMain, loadPreviousJson, hmark]
      | some c => simp [triggerMain, loadPreviousJson, hmark]
  · intro hsome
    cases hcur : currentLoad with
    | none =>
      rw [hcur] at hsome
      simp [triggerMain] at hsome
    | some c =>
      cases hprev : (loadPreviousJson prevSrc).1 with
      | none =>
        rw [hcur] at hsome
        simp only [triggerMain, hprev] at hsome
        simp at hsome
      | some p => simp

theorem claim_C8_witness :
    ((triggerMain none (PrevSource.gitError firstRunMarker)).1 = none ∧
      msgUnableCompare ∈ (triggerMain none (PrevSource.gitError firstRunMarker)).2 ∧
      msgNoPrevious ∈ (triggerMain none (PrevSource.gitError firstRunMarker)).2) ∧
    ((some emptyColl : Option JobCollection).isSome ∧
      (loadPreviousJson (PrevSource.parsed (some emptyColl))).1.isSome) :=
  ⟨⟨(claim_C8 none (PrevSource.parsed none) firstRunMarker).1.1,
    (claim_C8 none (PrevSource.parsed none) firstRunMarker).1.2.1,
    (claim_C8 none (PrevSource.parsed none) firstRunMarker).1.2.2 (by decide)⟩,
   (claim_C8 (some emptyColl) (PrevSource.parsed (some emptyColl))
      firstRunMarker).2 rfl⟩

/-! ## Helper lemmas for the field extractor -/

theorem dictLookup_append_of_eq_some (l1 l2 : List (String × α)) (k : String)
    (v : α) (h : dictLookup l1 k = some v) :
    dictLookup (l1 ++ l2) k = some v := by
  induction l1 with
  | nil => exact absurd h (by simp [dictLookup])
  | cons a t ih =>
    rw [dictLookup_cons] at h
    rw [List.cons_append, dictLookup_cons]
    cases hb : (a.1 == k) with
    | true => simp only [hb, if_true] at h ⊢; exact h
    | false =>
      simp only [hb, Bool.false_eq_true, if_false] at h ⊢
      exact ih h

theorem jobField_of_base (f : Fragment) (i : Nat) (k : String) (v : JVal)
    (h : dictLookup (jobDataBase f i) k = some v) : jobField f i k = some v := by
  rw [jobField, jobDataDict]
  exact dictLookup_append_of_eq_some _ _ _ _
    (dictLookup_append_of_eq_some _ _ _ _
      (dictLookup_append_of_eq_some _ _ _ _ h))

theorem jobDataBase_lookups (f : Fragment) (i : Nat) :
    dictLookup (jobDataBase f i) "job_id" = some (JVal.s (extractJobId f i)) ∧
    dictLookup (jobDataBase f i) "title" = some (JVal.s (extractTitle f)) ∧
    dictLookup (jobDataBase f i) "position_type" =
      some (JVal.s (extractPositionType f)) ∧
    dictLookup (jobDataBase f i) "location" = some (JVal.s (extractLocation f)) ∧
    dictLookup (jobDataBase f i) "date_posted" =
      some (JVal.s (extractDatePosted f)) ∧
    dictLookup (jobDataBase f i) "date_available" =
      some (JVal.s (extractDateAvailable f)) ∧
    dictLookup (jobDataBase f i) "closing_date" =
      some (JVal.s (extractClosingDate f)) ∧
    dictLookup (jobDataBase f i) "status" = some (JVal.s (extractStatus f)) ∧
    dictLookup (jobDataBase f i) "minimum_requirements" =
      some (JVal.s (extractRequirements f)) ∧
    dictLookup (jobDataBase f i) "salary_information" =
      some (JVal.s (extractSalary f)) ∧
    dictLookup (jobDataBase f i) "description" =
      some (JVal.s (truncateDescription (rawDescription f))) ∧
    dictLookup (jobDataBase f i) "attachments" =
      some (JVal.links (extractAttachments f)) ∧
    dictLookup (jobDataBase f i) "url" =
      some (JVal.s (jobUrl (extractJobId f i))) := by
  refine ⟨?_, ?_, ?_, ?_, ?_, ?_, ?_, ?_, ?_, ?_, ?_, ?_, ?_⟩ <;>
    simp [jobDataBase, dictLookup_cons]

theorem isPrefixOf_append_self (l₁ l₂ : List Char) :
    l₁.isPrefixOf (l₁ ++ l₂) = true := by
  induction l₁ with
  | nil => simp [List.isPrefixOf]
  | cons a t ih => simp [List.isPrefixOf, ih]

theorem truncateDescription_of_le (d : String) (h : d.length ≤ 500) :
    truncateDescription d = d := by
  have hneg : ¬ d.length > 500 := by omega
  rw [truncateDescription, if_neg hneg]
  have ht : d.data.take 500 = d.data := List.take_of_length_le h
  rw [ht]
  cases d with
  | mk l =>
    show String.mk (l ++ []) = String.mk l
    rw [List.append_nil]

theorem truncateDescription_of_gt (d : String) (h : d.length > 500) :
    (truncateDescription d).length = 503 ∧
    ∃ t, truncateDescription d = t ++ "..." := by
  constructor
  · rw [truncateDescription, if_pos h]
    show (d.data.take 500 ++ "...".data).length = 503
    have hd : 500 < d.data.length := h
    rw [List.length_append, List.length_take,
      show "...".data.length = 3 from rfl, Nat.min_eq_left (by omega)]
  · exact ⟨String.mk (d.data.take 500), by rw [truncateDescription, if_pos h]⟩

theorem truncateDescription_le (d : String) :
    (truncateDescription d).length ≤ 503 := by
  by_cases h : d.length > 500
  · exact (truncateDescription_of_gt d h).1.le
  · rw [truncateDescription_of_le d (by omega)]
    omega

theorem firstNonEmpty_two (a b : String) :
    (if a = "" then b else a) = firstNonEmpty [a, b] := by
  by_cases ha : a = ""
  · by_cases hb : b = "" <;> simp [firstNonEmpty, ha, hb]
  · simp [firstNonEmpty, ha]

theorem firstNonEmpty_three (a b c : String) :
    (if a = "" then (if b = "" then c else b) else a) =
      firstNonEmpty [a, b, c] := by
  by_cases ha : a = ""
  · by_cases hb : b = ""
    · by_cases hc : c = "" <;> simp [firstNonEmpty, ha, hb, hc]
    · simp [firstNonEmpty, ha, hb]
  · simp [firstNonEmpty, ha]

/-! ## Claims about the field extractor -/

/-- **C2**: the description entry of the returned job dict is the
truncation of the extracted description text; its length never exceeds
503, it is exactly 503 and ends with the `...` marker whenever the
extracted text is longer than 500 characters, and it is the extracted
text unmodified whenever that text is at most 500 characters. -/
theorem claim_C2 (f : Fragment) (index : Nat) :
    jobField f index "description" =
      some (JVal.s (truncateDescription (rawDescription f))) ∧
    (truncateDescription (rawDescription f)).length ≤ 503 ∧
    ((rawDescription f).length > 500 →
      (truncateDescription (rawDescription f)).length = 503 ∧
      ∃ t, truncateDescription (rawDescription f) = t ++ "...") ∧
    ((rawDescription f).length ≤ 500 →
      truncateDescription (rawDescription f) = rawDescription f) :=
  ⟨jobField_of_base _ _ _ _
      (jobDataBase_lookups f index).2.2.2.2.2.2.2.2.2.2.1,
   truncateDescription_le _,
   fun h => truncateDescription_of_gt _ h,
   fun h => truncateDescription_of_le _ h⟩

theorem claim_C2_witness :
    (rawDescription longDescFragment).length > 500 ∧
    (truncateDescription (rawDescription longDescFragment)).length = 503 ∧
    (∃ t, truncateDescription (rawDescription longDescFragment) = t ++ "...") ∧
    (rawDescription blankFragment).length ≤ 500 ∧
    truncateDescription (rawDescription blankFragment) =
      rawDescription blankFragment := by
  have h1 : (rawDescription longDescFragment).length > 500 := by
    rw [show rawDescription longDescFragment =
      String.mk (List.replicate 501 'a') from rfl]
    show 500 < (List.replicate 501 'a').length
    rw [List.length_replicate]
    omega
  have h2 := (claim_C2 longDescFragment 1).2.2.1 h1
  exact ⟨h1, h2.1, h2.2, by decide,
    (claim_C2 blankFragment 1).2.2.2 (by decide)⟩

/-- **C4 counterexample**: on a fragment with no recognisable fields the
`job_id` and `url` entries are *not* empty strings — `job_id` falls back
to the synthetic `job_1` and `url` to the fixed listing url — against the
claim's "all required keys ... with empty-string values for fields that
could not be extracted". -/
theorem claim_C4_counterexample :
    jobField blankFragment 1 "job_id" = some (JVal.s "job_1") ∧
    jobField blankFragment 1 "job_id" ≠ some (JVal.s "") ∧
    jobField blankFragment 1 "url" ≠ some (JVal.s "") :=
  ⟨rfl, by decide, by decide⟩

/-- **C4** (amended: the ten content fields degrade to the empty string
and attachments to the empty list, while `job_id` defaults to the
synthetic `job_<index>` and `url` to the fixed listing url).  For *every*
fragment the returned dict contains all thirteen required keys — the
extraction function is total, so no fragment makes it raise — and on a
fragment with no recognisable fields the dict holds exactly those
thirteen keys with the stated default values. -/
theorem claim_C4 (f : Fragment) (index : Nat) :
    ((jobField f index "job_id").isSome ∧
     (jobField f index "title").isSome ∧
     (jobField f index "position_type").isSome ∧
     (jobField f index "location").isSome ∧
     (jobField f index "date_posted").isSome ∧
     (jobField f index "date_available").isSome ∧
     (jobField f index "closing_date").isSome ∧
     (jobField f index "status").isSome ∧
     (jobField f index "minimum_requirements").isSome ∧
     (jobField f index "salary_information").isSome ∧
     (jobField f index "description").isSome ∧
     (jobField f index "attachments").isSome ∧
     (jobField f index "url").isSome) ∧
    (jobField blankFragment index "job_id" =
        some (JVal.s ("job_" ++ toString index)) ∧
     jobField blankFragment index "title" = some (JVal.s "") ∧
     jobField blankFragment index "position_type" = some (JVal.s "") ∧
     jobField blankFragment index "location" = some (JVal.s "") ∧
     jobField blankFragment index "date_posted" = some (JVal.s "") ∧
     jobField blankFragment index "date_available" = some (JVal.s "") ∧
     jobField blankFragment index "closing_date" = some (JVal.s "") ∧
     jobField blankFragment index "status" = some (JVal.s "") ∧
     jobField blankFragment index "minimum_requirements" = some (JVal.s "") ∧
     jobField blankFragment index "salary_information" = some (JVal.s "") ∧
     jobField blankFragment index "description" = some (JVal.s "") ∧
     jobField blankFragment index "attachments" = some (JVal.links []) ∧
     jobField blankFragment index "url" = some (JVal.s
       "https://www.applitrack.com/washk12/onlineapp/default.aspx?all=1") ∧
     (jobDataDict blankFragment index).length = 13) := by
  have hb := jobDataBase_lookups f index
  have hbb := jobDataBase_lookups blankFragment index
  have hurl : jobUrl (extractJobId blankFragment index) =
      "https://www.applitrack.com/washk12/onlineapp/default.aspx?all=1" := by
    rw [show extractJobId blankFragment index = "job_" ++ toString index from rfl,
      jobUrl, if_pos]
    show ("job_".data.isPrefixOf ("job_" ++ toString index).data) = true
    rw [String.data_append]
    exact isPrefixOf_append_self _ _
  constructor
  · refine ⟨?_, ?_, ?_, ?_, ?_, ?_, ?_, ?_, ?_, ?_, ?_, ?_, ?_⟩
    · rw [jobField_of_base _ _ _ _ hb.1]; rfl
    · rw [jobField_of_base _ _ _ _ hb.2.1]; rfl
    · rw [jobField_of_base _ _ _ _ hb.2.2.1]; rfl
    · rw [jobField_of_base _ _ _ _ hb.2.2.2.1]; rfl
    · rw [jobField_of_base _ _ _ _ hb.2.2.2.2.1]; rfl
    · rw [jobField_of_base _ _ _ _ hb.2.2.2.2.2.1]; rfl
    · rw [jobField_of_base _ _ _ _ hb.2.2.2.2.2.2.1]; rfl
    · rw [jobField_of_base _ _ _ _ hb.2.2.2.2.2.2.2.1]; rfl
    · rw [jobField_of_base _ _ _ _ hb.2.2.2.2.2.2.2.2.1]; rfl
    · rw [jobField_of_base _ _ _ _ hb.2.2.2.2.2.2.2.2.2.1]; rfl
    · rw [jobField_of_base _ _ _ _ hb.2.2.2.2.2.2.2.2.2.2.1]; rfl
    · rw [jobField_of_base _ _ _ _ hb.2.2.2.2.2.2.2.2.2.2.2.1]; rfl
    · rw [jobField_of_base _ _ _ _ hb.2.2.2.2.2.2.2.2.2.2.2.2]; rfl
  · refine ⟨(jobField_of_base _ _ _ _ hbb.1).trans rfl,
      (jobField_of_base _ _ _ _ hbb.2.1).trans rfl,
      (jobField_of_base _ _ _ _ hbb.2.2.1).trans rfl,
      (jobField_of_base _ _ _ _ hbb.2.2.2.1).trans rfl,
      (jobField_of_base _ _ _ _ hbb.2.2.2.2.1).trans rfl,
      (jobField_of_base _ _ _ _ hbb.2.2.2.2.2.1).trans rfl,
      (jobField_of_base _ _ _ _ hbb.2.2.2.2.2.2.1).trans rfl,
      (jobField_of_base _ _ _ _ hbb.2.2.2.2.2.2.2.1).trans rfl,
      (jobField_of_base _ _ _ _ hbb.2.2.2.2.2.2.2.2.1).trans rfl,
      (jobField_of_base _ _ _ _ hbb.2.2.2.2.2.2.2.2.2.1).trans rfl,
      (jobField_of_base _ _ _ _ hbb.2.2.2.2.2.2.2.2.2.2.1).trans rfl,
      (jobField_of_base _ _ _ _ hbb.2.2.2.2.2.2.2.2.2.2.2.1).trans rfl,
      (jobField_of_base _ _ _ _ hbb.2.2.2.2.2.2.2.2.2.2.2.2).trans
        (by rw [hurl]), ?_⟩
    have hf : extractFte blankFragment = "" := rfl
    have he : extractEndorsements blankFragment = "" := rfl
    have hl : extractLicenseReq blankFragment = "" := rfl
    simp [jobDataDict, hf, he, hl, jobDataBase]

/-- **C6 counterexample**: a fragment whose JobID text yields `111` and
whose apply button yields `222`.  The first job-id strategy succeeds with
a non-empty value, yet the returned job id is the *second* strategy's
value — the apply-button lookup is consulted and wins even though the
JobID-text lookup already yielded a value, refuting the ordered-fallback
claim for `job_id`. -/
theorem claim_C6_counterexample :
    overrideFragment.jobIdString.bind searchJobId = some "111" ∧
    extractJobId overrideFragment 1 = "222" ∧
    extractJobId overrideFragment 1 ≠ "111" :=
  ⟨rfl, rfl, by decide⟩

/-- **C6** (amended): the label/regex fields follow the ordered fallback
policy exactly — the field equals the first non-empty strategy result, in
strategy order, and is empty only when every strategy yields empty.  The
description selects its source by *presence* (span existence / key
presence) rather than non-emptiness, and `job_id` gives the apply-button
strategy precedence over the JobID-text strategy, defaulting to the
synthetic `job_<index>` (never the empty string). -/
theorem claim_C6 (f : Fragment) (index : Nat) :
    extractPositionType f = firstNonEmpty
      [fieldsGet (fieldsOf f) "Position Type",
       extract_field f.allText "Position Type" false] ∧
    extractLocation f = firstNonEmpty
      [fieldsGet (fieldsOf f) "Location",
       extract_field f.allText "Location" false] ∧
    extractDatePosted f = firstNonEmpty
      [fieldsGet (fieldsOf f) "Date Posted",
       extract_field f.allText "Date Posted" false] ∧
    extractClosingDate f = firstNonEmpty
      [fieldsGet (fieldsOf f) "Closing Date",
       extract_field f.allText "Closing Date" false] ∧
    extractDateAvailable f = firstNonEmpty
      [fieldsGet (fieldsOf f) "Date Available",
       extract_field f.allText "Date Available" false] ∧
    extractStatus f = firstNonEmpty
      [fieldsGet (fieldsOf f) "Status",
       extract_field f.allText "Status" false] ∧
    extractRequirements f = firstNonEmpty
      [fieldsGet (fieldsOf f) "Minimum Requirements",
       extract_field f.allText "Minimum Requirements" false] ∧
    extractSalary f = firstNonEmpty
      [fieldsGet (fieldsOf f) "Salary",
       extract_field f.allText "Salary" false,
       salaryWindow f.allText.data] ∧
    extractFte f = firstNonEmpty
      [fieldsGet (fieldsOf f) "FTE", fteSibling f] ∧
    extractEndorsements f = firstNonEmpty
      [fieldsGet (fieldsOf f) "Endorsements Required",
       extract_field f.allText "Endorsement" true,
       endorsementSibling f] ∧
    extractLicenseReq f = firstNonEmpty
      [fieldsGet (fieldsOf f) "License Requirements",
       extract_field f.allText "License Requirement" true,
       licenseSibling f] ∧
    rawDescription f = (findDescSpan f.spans).getD
      (if (fieldsOf f).any (fun kv => kv.1 == "Additional Information") then
        fieldsGet (fieldsOf f) "Additional Information"
      else (findLongTextSpan f.spans).getD "") ∧
    extractJobId f index = (f.applyOnclick.bind searchApplyFor).getD
      ((f.jobIdString.bind searchJobId).getD ("job_" ++ toString index)) := by
  refine ⟨firstNonEmpty_two _ _, firstNonEmpty_two _ _, firstNonEmpty_two _ _,
    firstNonEmpty_two _ _, firstNonEmpty_two _ _, firstNonEmpty_two _ _,
    firstNonEmpty_two _ _, firstNonEmpty_three _ _ _, firstNonEmpty_two _ _,
    firstNonEmpty_three _ _ _, firstNonEmpty_three _ _ _, ?_, ?_⟩
  · cases hds : findDescSpan f.spans with
    | some t => simp [rawDescription, hds]
    | none =>
      cases hlt : findLongTextSpan f.spans <;> simp [rawDescription, hds, hlt]
  · cases hj : f.jobIdString with
    | none =>
      cases ha : f.applyOnclick with
      | none => simp [extractJobId, hj, ha]
      | some oc =>
        cases hs : searchApplyFor oc <;> simp [extractJobId, hj, ha, hs]
    | some s =>
      cases h1 : searchJobId s with
      | none =>
        cases ha : f.applyOnclick with
        | none => simp [extractJobId, hj, ha, h1]
        | some oc =>
          cases hs : searchApplyFor oc <;> simp [extractJobId, hj, ha, h1, hs]
      | some v =>
        cases ha : f.applyOnclick with
        | none => simp [extractJobId, hj, ha, h1]
        | some oc =>
          cases hs : searchApplyFor oc <;> simp [extractJobId, hj, ha, h1, hs]

/-! ## Claim about the serializer -/

/-- **C10**: with an empty record list the serializer writes nothing and
returns the empty filename, and the scraper's `main` never calls it
(printing `"No jobs found."` instead), so any prior index document
survives unchanged — in either output mode. -/
theorem claim_C10 (indexMode : Bool) (dateStr timeStr : String) (unixTs : Nat)
    (fs : List (String × JobCollection)) :
    saveJobsToJson [] indexMode dateStr timeStr unixTs fs = ("", fs) ∧
    (scraperMain [] indexMode dateStr timeStr unixTs fs).1 = fs ∧
    (scraperMain [] indexMode dateStr timeStr unixTs fs).2 = ["No jobs found."] ∧
    dictLookup (scraperMain [] indexMode dateStr timeStr unixTs fs).1
      "washk12_jobs/index.json" = dictLookup fs "washk12_jobs/index.json" :=
  ⟨rfl, rfl, rfl, rfl⟩

end Nano
